import Mathlib

/-
Verification development for the Box Node SDK core slice: token/session
lifecycle, the resilient request executor, the SDK entry point
(box-node-sdk.ts), and the Metadata / Groups resource managers.

Pure parts of the TypeScript source are embedded as executable Lean
functions; the stateful token-refresh coordination is embedded as an
explicit state machine with a step function over session states.
-/

-- ===========================================================================
-- Token data model (spec section 3)
-- ===========================================================================

/-- TokenInfo record: access token, optional refresh token, expiry and
acquisition timestamps (milliseconds since epoch, modelled as Nat). -/
structure TokenInfo where
  accessToken : String
  refreshToken : Option String
  accessTokenExpiresAt : Nat
  acquiredAt : Nat
deriving DecidableEq, Repr

/-- Grant-exchange failure classification (spec section 4.2 / 7). -/
inductive GrantError where
  | invalidGrant
  | networkFailure
  | configurationError
deriving DecidableEq, Repr

/-- Authentication errors surfaced by sessions (spec sections 4.3 / 7). -/
inductive AuthError where
  | unrecoverable
  | sessionExpired
  | refreshFailed (e : GrantError)
deriving DecidableEq, Repr

/-- Modelled from the spec: token staleness with a safety margin (the
token-manager source is not in the slice).  A token whose literal expiry
lies within the safety margin of the current time is treated as stale. -/
def isStale (margin now : Nat) (t : TokenInfo) : Bool :=
  t.accessTokenExpiresAt ≤ now + margin

/-- A cache slot needs a refresh when it is empty or its token is stale. -/
def needsRefresh (margin now : Nat) (c : Option TokenInfo) : Bool :=
  match c with
  | none => true
  | some t => isStale margin now t

-- ===========================================================================
-- Persistent / App-Auth session state machine (spec sections 4.3 / 5)
-- ===========================================================================

/-- Modelled from the spec: shared mutable state of one Persistent or
App-Auth session (equivalently, one App-Auth cache entry): the cached
token, the single in-flight refresh handle, the callers joined to it,
the terminal invalid-grant flag, and a counter of grant/refresh network
calls actually issued. -/
structure SessionState where
  cached : Option TokenInfo
  inFlight : Bool
  waiters : Nat
  unrecoverable : Bool
  networkCalls : Nat
deriving DecidableEq, Repr

/-- Events of the session state machine: a caller invokes getAccessToken
at a given time, or the in-flight refresh completes with a result. -/
inductive SessionEvent where
  | call (now : Nat)
  | complete (r : Except GrantError TokenInfo)

/-- Modelled from the spec: one transition of a Persistent / App-Auth
session.  A call on an unrecoverable session fails immediately; a call
with a fresh cached token returns it with no network activity; a call
with a stale or absent token joins the in-flight refresh when one
exists, otherwise starts the single refresh (one network call).
Completion delivers the result to every joined waiter; a failed refresh
leaves the cached token unchanged, and an invalid-grant failure marks
the session unrecoverable. -/
def step (margin : Nat) (s : SessionState) :
    SessionEvent → SessionState × List (Except AuthError String)
  | .call now =>
    if s.unrecoverable then (s, [.error .unrecoverable])
    else if needsRefresh margin now s.cached then
      if s.inFlight then ({ s with waiters := s.waiters + 1 }, [])
      else
        ({ s with inFlight := true, waiters := s.waiters + 1,
                  networkCalls := s.networkCalls + 1 }, [])
    else
      match s.cached with
      | some t => (s, [.ok t.accessToken])
      | none => (s, [])
  | .complete r =>
    match r with
    | .ok t =>
        ({ s with cached := some t, inFlight := false, waiters := 0 },
         List.replicate s.waiters (.ok t.accessToken))
    | .error e =>
        ({ s with inFlight := false, waiters := 0,
                  unrecoverable := s.unrecoverable || decide (e = GrantError.invalidGrant) },
         List.replicate s.waiters (.error (.refreshFailed e)))

/-- Run a sequence of session events, collecting all delivered results. -/
def runEvents (margin : Nat) (s : SessionState) :
    List SessionEvent → SessionState × List (Except AuthError String)
  | [] => (s, [])
  | e :: rest =>
    let p := step margin s e
    let q := runEvents margin p.1 rest
    (q.1, p.2 ++ q.2)

-- ===========================================================================
-- Basic session (spec section 4.3)
-- ===========================================================================

/-- Modelled from the spec: a Basic session holds one fixed access token
for its entire lifetime (basic-session.js is not in the slice).  The
expiry instant is fixed at construction along with the token. -/
structure BasicSession where
  accessToken : String
  tokenExpiresAt : Nat
deriving DecidableEq, Repr

/-- Modelled from the spec: getAccessToken on a Basic session.  Returns
the fixed token while it is unexpired and SessionExpired afterwards; the
second component counts network (refresh) calls, which is always zero
because a Basic session has no refresh capability. -/
def BasicSession.getAccessToken (s : BasicSession) (now : Nat) :
    Except AuthError String × Nat :=
  if now < s.tokenExpiresAt then (.ok s.accessToken, 0)
  else (.error .sessionExpired, 0)

-- ===========================================================================
-- Resilient request executor (spec section 4.1)
-- ===========================================================================

/-- One attempt's outcome as seen by the executor: either a server
response (with its HTTP status) was received, or the connection failed
before any response arrived (timeout / connection reset). -/
inductive Outcome where
  | response (status : Nat)
  | connectionFailure
deriving DecidableEq, Repr

/-- Executor classification of an attempt outcome (spec section 4.1). -/
inductive OutcomeClass where
  | success
  | retryableServer
  | retryableRateLimited
  | nonRetryable
deriving DecidableEq, Repr

/-- Modelled from the spec: the executor's per-request outcome
classification (api-request-manager is not in the slice).  2xx is
success; a connection-level failure with no response is RetryableServer
for any request; for an idempotent request a 429 is rate-limited and a
5xx is RetryableServer; any server response received by a non-idempotent
request, and any other 4xx, is surfaced and never retried. -/
def classify (idempotent : Bool) : Outcome → OutcomeClass
  | .connectionFailure => .retryableServer
  | .response s =>
    if 200 ≤ s ∧ s < 300 then .success
    else if !idempotent then .nonRetryable
    else if s = 429 then .retryableRateLimited
    else if 500 ≤ s then .retryableServer
    else .nonRetryable

/-- Whether the executor retries after the given outcome. -/
def retryDecision (idempotent : Bool) (o : Outcome) : Bool :=
  match classify idempotent o with
  | .retryableServer => true
  | .retryableRateLimited => true
  | _ => false

/-- Terminal result of the executor. -/
inductive ExecResult where
  | success (status : Nat)
  | failure (o : Outcome)
  | maxRetriesExceeded
deriving DecidableEq, Repr

/-- Modelled from the spec: the executor's attempt loop.  The remaining
attempt budget is the first Nat argument and the number of attempts made
so far is the second; the i-th attempt observes outcome (responses i).
Returns the terminal result and the total number of attempts made. -/
def executeAux (idempotent : Bool) (responses : Nat → Outcome) :
    Nat → Nat → ExecResult × Nat
  | 0, made => (.maxRetriesExceeded, made)
  | fuel + 1, made =>
    let o := responses made
    if retryDecision idempotent o then
      executeAux idempotent responses fuel (made + 1)
    else
      match o with
      | .response s =>
        if 200 ≤ s ∧ s < 300 then (.success s, made + 1)
        else (.failure (.response s), made + 1)
      | .connectionFailure => (.failure .connectionFailure, made + 1)

/-- Modelled from the spec: execute a request with the given idempotency
and retry budget against a sequence of attempt outcomes. -/
def execute (idempotent : Bool) (retryBudget : Nat) (responses : Nat → Outcome) :
    ExecResult × Nat :=
  executeAux idempotent responses retryBudget 0

-- ===========================================================================
-- JavaScript value model, used by the embeddings of box-node-sdk.ts,
-- managers/metadata.ts and managers/groups.ts
-- ===========================================================================

/-- A JavaScript runtime value.  Objects are association lists of own
properties in insertion order; functions are tagged by an identifier. -/
inductive JSVal where
  | undefined
  | null
  | str (s : String)
  | num (n : Int)
  | boolean (b : Bool)
  | obj (fields : List (String × JSVal))
  | func (id : Nat)

/-- JavaScript typeof. -/
def JSVal.typeof : JSVal → String
  | .undefined => "undefined"
  | .null => "object"
  | .str _ => "string"
  | .num _ => "number"
  | .boolean _ => "boolean"
  | .obj _ => "object"
  | .func _ => "function"

/-- JavaScript truthiness. -/
def JSVal.truthy : JSVal → Bool
  | .undefined => false
  | .null => false
  | .str s => decide (s ≠ "")
  | .num n => decide (n ≠ 0)
  | .boolean b => b
  | .obj _ => true
  | .func _ => true

/-- First-match lookup of an own property in an object's field list. -/
def lookupField : List (String × JSVal) → String → Option JSVal
  | [], _ => none
  | (k', v) :: rest, k => if k' = k then some v else lookupField rest k

/-- JavaScript property assignment on an object's field list: an
existing key is overwritten in place, a new key is appended. -/
def setProp : List (String × JSVal) → String → JSVal → List (String × JSVal)
  | [], k, v => [(k, v)]
  | (k', v') :: rest, k, v =>
    if k' = k then (k, v) :: rest else (k', v') :: setProp rest k v

/-- JavaScript errors thrown by the SDK entry point: TypeError or a
plain Error, each with its message. -/
inductive JSErr where
  | typeError (msg : String)
  | plainError (msg : String)
deriving DecidableEq, Repr

/-- JavaScript property access: fields of an object (absent gives
undefined); accessing a property of null or undefined throws a
TypeError; property access on other primitives yields undefined. -/
def JSVal.getProp : JSVal → String → Except JSErr JSVal
  | .obj fields, k => .ok ((lookupField fields k).getD .undefined)
  | .null, k => .error (.typeError ("Cannot read properties of null: " ++ k))
  | .undefined, k => .error (.typeError ("Cannot read properties of undefined: " ++ k))
  | _, _ => .ok .undefined

/-- Extract the string payload of a JS value when it is a string. -/
def JSVal.asString : JSVal → Option String
  | .str s => some s
  | _ => none

-- ===========================================================================
-- BoxSDKNode entry point (box-node-sdk.ts)
-- ===========================================================================

/-- App-auth parameters assembled by getPreconfiguredInstance. -/
structure AppAuthParams where
  keyID : JSVal
  privateKey : JSVal
  passphrase : Option String

/-- The params object getPreconfiguredInstance passes to the BoxSDKNode
constructor. -/
structure SDKParams where
  clientID : Option String
  clientSecret : Option String
  appAuth : Option AppAuthParams
  enterpriseID : Option String

/-- BoxSDKNode.getPreconfiguredInstance: validates that
appConfig.boxAppSettings is typeof object (throwing a TypeError
otherwise), forwards webhook signature keys when appConfig.webhooks is
typeof object, then copies clientID / clientSecret / appAuth (keyID from
publicKeyID, only when truthy) / enterpriseID into the constructor
params, each only when of the expected type. -/
def getPreconfiguredInstance (appConfig : JSVal) : Except JSErr SDKParams := do
  let boxAppSettings ← appConfig.getProp "boxAppSettings"
  if boxAppSettings.typeof ≠ "object" then
    throw (.typeError "Configuration does not include boxAppSettings object.")
  let webhooks ← appConfig.getProp "webhooks"
  if webhooks.typeof = "object" then do
    let _primary ← webhooks.getProp "primaryKey"
    let _secondary ← webhooks.getProp "secondaryKey"
    pure ()
  else pure ()
  let cid ← boxAppSettings.getProp "clientID"
  let clientID := if cid.typeof = "string" then cid.asString else none
  let cs ← boxAppSettings.getProp "clientSecret"
  let clientSecret := if cs.typeof = "string" then cs.asString else none
  let aa ← boxAppSettings.getProp "appAuth"
  let appAuth ←
    if aa.typeof = "object" then do
      let publicKeyID ← aa.getProp "publicKeyID"
      if publicKeyID.truthy then do
        let privateKey ← aa.getProp "privateKey"
        let passphrase ← aa.getProp "passphrase"
        pure (some
          { keyID := publicKeyID, privateKey := privateKey,
            passphrase := if passphrase.typeof = "string" then passphrase.asString else none })
      else pure none
    else pure none
  let eid ← appConfig.getProp "enterpriseID"
  let enterpriseID := if eid.typeof = "string" then eid.asString else none
  pure { clientID := clientID, clientSecret := clientSecret,
         appAuth := appAuth, enterpriseID := enterpriseID }

/-- Truthiness of an optional configuration string (config.enterpriseID). -/
def strTruthy : Option String → Bool
  | some s => decide (s ≠ "")
  | none => false

/-- Falsiness of the optional id argument (undefined or empty string). -/
def idFalsy : Option String → Bool
  | some s => decide (s = "")
  | none => true

/-- The AppAuthSession constructor arguments produced by
getAppAuthClient. -/
structure AppAuthSessionArgs where
  entityType : String
  entityID : Option String
deriving DecidableEq, Repr

/-- BoxSDKNode.getAppAuthClient: when called for an enterprise with a
falsy id, falls back to the configured enterpriseID and throws an Error
when none is configured; otherwise constructs the session for the given
entity. -/
def getAppAuthClient (configEnterpriseID : Option String) (entityType : String)
    (id : Option String) : Except JSErr AppAuthSessionArgs :=
  if entityType = "enterprise" && idFalsy id then
    if strTruthy configEnterpriseID then
      .ok { entityType := entityType, entityID := configEnterpriseID }
    else .error (.plainError "Enterprise ID must be passed")
  else .ok { entityType := entityType, entityID := id }

-- ===========================================================================
-- BoxSDKNode token-grant convenience methods (box-node-sdk.ts)
-- ===========================================================================

/-- The call a BoxSDKNode token method forwards to the token manager:
the token-manager method name, its positional string arguments, the
options value passed through, and the callback handed to asCallback. -/
structure TMCall where
  method : String
  args : List String
  options : JSVal
  callback : JSVal

/-- The callback-shift prelude shared by the shifting methods: when the
options argument is a function it becomes the callback and options
becomes null. -/
def shiftArgs (options callback : JSVal) : JSVal × JSVal :=
  if options.typeof = "function" then (.null, options) else (options, callback)

/-- BoxSDKNode.getTokensAuthorizationCodeGrant: no argument shift. -/
def getTokensAuthorizationCodeGrant (authorizationCode : String)
    (options callback : JSVal) : TMCall :=
  { method := "getTokensAuthorizationCodeGrant", args := [authorizationCode],
    options := options, callback := callback }

/-- BoxSDKNode.getTokensRefreshGrant, with the callback shift. -/
def getTokensRefreshGrant (refreshToken : String) (options callback : JSVal) : TMCall :=
  let p := shiftArgs options callback
  { method := "getTokensRefreshGrant", args := [refreshToken],
    options := p.1, callback := p.2 }

/-- BoxSDKNode.getEnterpriseAppAuthTokens: callback shift, then fall
back to the configured enterpriseID when the argument is falsy, throwing
when none is configured. -/
def getEnterpriseAppAuthTokens (configEnterpriseID : Option String)
    (enterpriseID : String) (options callback : JSVal) : Except JSErr TMCall :=
  let p := shiftArgs options callback
  if enterpriseID ≠ "" then
    .ok { method := "getTokensJWTGrant", args := ["enterprise", enterpriseID],
          options := p.1, callback := p.2 }
  else if strTruthy configEnterpriseID then
    .ok { method := "getTokensJWTGrant",
          args := ["enterprise", configEnterpriseID.getD ""],
          options := p.1, callback := p.2 }
  else .error (.plainError "Enterprise id must be passed")

/-- BoxSDKNode.getAppUserTokens, with the callback shift. -/
def getAppUserTokens (userID : String) (options callback : JSVal) : TMCall :=
  let p := shiftArgs options callback
  { method := "getTokensJWTGrant", args := ["user", userID],
    options := p.1, callback := p.2 }

/-- BoxSDKNode.revokeTokens, with the callback shift. -/
def revokeTokens (token : String) (options callback : JSVal) : TMCall :=
  let p := shiftArgs options callback
  { method := "revokeTokens", args := [token],
    options := p.1, callback := p.2 }

-- ===========================================================================
-- Metadata manager (managers/metadata.ts)
-- ===========================================================================

/-- The POST path used by Metadata.query. -/
def QUERY_PATH : String := "/metadata_queries/execute_read"

/-- Request parameters built by a manager method: the API path and the
request body as a JS object field list. -/
structure RequestParams where
  path : String
  body : List (String × JSVal)

/-- The optional parameters accepted by Metadata.query, as declared in
its TypeScript signature. -/
structure MetadataQueryOptions where
  query : Option JSVal
  query_parameters : Option JSVal
  index_name : Option JSVal
  order_by : Option JSVal
  fields : Option JSVal

/-- The own-property field list of the rest object produced by
destructuring index_name out of the options object: every declared field
except index_name, in declaration order, when present. -/
def MetadataQueryOptions.restFields (o : MetadataQueryOptions) : List (String × JSVal) :=
  (match o.query with | some v => [("query", v)] | none => []) ++
  (match o.query_parameters with | some v => [("query_parameters", v)] | none => []) ++
  (match o.order_by with | some v => [("order_by", v)] | none => []) ++
  (match o.fields with | some v => [("fields", v)] | none => [])

/-- The merge-options call on two flat field lists: every source field
is assigned onto (a clone of) the target. -/
def mergeFields (target source : List (String × JSVal)) : List (String × JSVal) :=
  source.foldl (fun acc kv => setProp acc kv.1 kv.2) target

/-- Metadata.query: builds the body from the template and ancestor
folder, destructures index_name out of the options (defaulting absent
options to the empty object), and merges the remaining options into the
body posted to the metadata-query path. -/
def Metadata.query (from_ ancestorFolderId : String)
    (options : Option MetadataQueryOptions) : RequestParams :=
  let body : List (String × JSVal) :=
    [("from", .str from_), ("ancestor_folder_id", .str ancestorFolderId)]
  let newOptions := (options.getD ⟨none, none, none, none, none⟩).restFields
  { path := QUERY_PATH, body := mergeFields body newOptions }

-- ===========================================================================
-- Groups manager (managers/groups.ts)
-- ===========================================================================

/-- The groups collection path. -/
def GROUPS_BASE_PATH : String := "/groups"

/-- Groups.create: the body starts as the caller's options object (or an
empty object when absent) and its name property is then assigned the
name argument; the result is posted to the groups path. -/
def Groups.create (name : String) (options : Option (List (String × JSVal))) :
    RequestParams :=
  let body := options.getD []
  let body := setProp body "name" (.str name)
  { path := GROUPS_BASE_PATH, body := body }

-- ===========================================================================
-- Helper lemmas
-- ===========================================================================

/-- Property lookup after a JS property assignment: the assigned key
reads back the new value and every other key is unchanged. -/
theorem lookupField_setProp (l : List (String × JSVal)) (k : String) (v : JSVal)
    (k' : String) :
    lookupField (setProp l k v) k' = if k' = k then some v else lookupField l k' := by
  induction l with
  | nil =>
    by_cases h : k' = k
    · simp [setProp, lookupField, h]
    · simp [setProp, lookupField, h, Ne.symm h]
  | cons a rest ih =>
    obtain ⟨ka, va⟩ := a
    by_cases hak : ka = k
    · subst hak
      by_cases h : k' = ka
      · simp [setProp, lookupField, h]
      · simp [setProp, lookupField, h, Ne.symm h]
    · by_cases h : k' = k
      · subst h
        simp [setProp, lookupField, hak, Ne.symm hak, ih]
      · simp [setProp, lookupField, hak, h, ih]

-- ===========================================================================
-- Claim theorems
-- ===========================================================================

/-- Claim C9: the body Groups.create posts to the groups path is the
caller's options object (empty when absent) with its name property set
to the name argument — the name argument overwrites any caller-supplied
name, and every other options field passes through unchanged. -/
theorem groups_create_body_name_override (name : String)
    (options : Option (List (String × JSVal))) :
    (∀ k : String,
      lookupField (Groups.create name options).body k =
        if k = "name" then some (.str name) else lookupField (options.getD []) k)
    ∧ (Groups.create name options).path = "/groups" := by
  refine ⟨fun k => ?_, rfl⟩
  simp [Groups.create, lookupField_setProp]

/-- Claim C8: the body Metadata.query posts to the metadata-query path
contains the template and ancestor folder together with every options
field except index_name, which never appears (no matter what the caller
put there); absent options give the two-field body. -/
theorem metadata_query_strips_index_name (from_ afi : String)
    (o : MetadataQueryOptions) :
    lookupField (Metadata.query from_ afi (some o)).body "from" = some (.str from_)
    ∧ lookupField (Metadata.query from_ afi (some o)).body "ancestor_folder_id"
        = some (.str afi)
    ∧ lookupField (Metadata.query from_ afi (some o)).body "index_name" = none
    ∧ lookupField (Metadata.query from_ afi (some o)).body "query" = o.query
    ∧ lookupField (Metadata.query from_ afi (some o)).body "query_parameters"
        = o.query_parameters
    ∧ lookupField (Metadata.query from_ afi (some o)).body "order_by" = o.order_by
    ∧ lookupField (Metadata.query from_ afi (some o)).body "fields" = o.fields
    ∧ (Metadata.query from_ afi none).body =
        [("from", .str from_), ("ancestor_folder_id", .str afi)]
    ∧ (Metadata.query from_ afi (some o)).path = "/metadata_queries/execute_read" := by
  obtain ⟨q, qp, idx, ob, f⟩ := o
  cases q <;> cases qp <;> cases idx <;> cases ob <;> cases f <;>
    exact ⟨rfl, rfl, rfl, rfl, rfl, rfl, rfl, rfl, rfl⟩

/-- Claim C10: getTokensRefreshGrant, getEnterpriseAppAuthTokens,
getAppUserTokens and revokeTokens all treat a function options argument
as the callback with null options — the call behaves exactly like
passing (arg, null, callback) — while getTokensAuthorizationCodeGrant
passes its options and callback through unshifted. -/
theorem token_method_callback_shift :
    (∀ (refreshToken : String) (n : Nat) (cb : JSVal),
      getTokensRefreshGrant refreshToken (.func n) cb =
        getTokensRefreshGrant refreshToken .null (.func n))
    ∧ (∀ (cfg : Option String) (eid : String) (n : Nat) (cb : JSVal),
      getEnterpriseAppAuthTokens cfg eid (.func n) cb =
        getEnterpriseAppAuthTokens cfg eid .null (.func n))
    ∧ (∀ (userID : String) (n : Nat) (cb : JSVal),
      getAppUserTokens userID (.func n) cb = getAppUserTokens userID .null (.func n))
    ∧ (∀ (token : String) (n : Nat) (cb : JSVal),
      revokeTokens token (.func n) cb = revokeTokens token .null (.func n))
    ∧ (∀ (code : String) (options cb : JSVal),
      (getTokensAuthorizationCodeGrant code options cb).options = options
      ∧ (getTokensAuthorizationCodeGrant code options cb).callback = cb) :=
  ⟨fun _ _ _ => rfl, fun _ _ _ _ => rfl, fun _ _ _ => rfl, fun _ _ _ => rfl,
   fun _ _ _ => ⟨rfl, rfl⟩⟩

/-- Claim C6: a Basic session returns its fixed token with zero network
calls before expiry, and after expiry every later call fails with
SessionExpired, perpetually, still with zero network calls. -/
theorem basic_session_fixed_token (s : BasicSession) (now : Nat) :
    (now < s.tokenExpiresAt →
      s.getAccessToken now = (.ok s.accessToken, 0))
    ∧ (s.tokenExpiresAt ≤ now →
      ∀ later : Nat, now ≤ later →
        s.getAccessToken later = (.error .sessionExpired, 0)) := by
  constructor
  · intro h
    simp [BasicSession.getAccessToken, h]
  · intro h later hle
    have hnot : ¬ later < s.tokenExpiresAt := by omega
    simp [BasicSession.getAccessToken, hnot]

theorem basic_session_fixed_token_witness :
    BasicSession.getAccessToken ⟨"tok-A", 100⟩ 5 = (.ok "tok-A", 0)
    ∧ BasicSession.getAccessToken ⟨"tok-A", 100⟩ 150 = (.error .sessionExpired, 0) :=
  ⟨(basic_session_fixed_token ⟨"tok-A", 100⟩ 5).1 (by decide),
   (basic_session_fixed_token ⟨"tok-A", 100⟩ 100).2 (by decide) 150 (by decide)⟩

/-- The executor's attempt loop under uniformly retryable-server
outcomes consumes its whole remaining budget and reports exhaustion. -/
theorem executeAux_all_retryable (idem : Bool) (responses : Nat → Outcome)
    (h : ∀ i, classify idem (responses i) = .retryableServer) :
    ∀ fuel made, executeAux idem responses fuel made = (.maxRetriesExceeded, made + fuel) := by
  intro fuel
  induction fuel with
  | zero => intro made; simp [executeAux]
  | succ n ih =>
    intro made
    have hr : retryDecision idem (responses made) = true := by
      simp [retryDecision, h made]
    have harith : made + 1 + n = made + (n + 1) := by omega
    simp [executeAux, hr, ih (made + 1), harith]

/-- Claim C2: against a response sequence the executor classifies as all
RetryableServer, execution makes exactly retryBudget attempts and then
returns MaxRetriesExceeded — never a (retryBudget + 1)-th attempt and
never a success. -/
theorem executor_retry_bounded (idempotent : Bool) (retryBudget : Nat)
    (responses : Nat → Outcome)
    (h : ∀ i, classify idempotent (responses i) = .retryableServer) :
    execute idempotent retryBudget responses = (.maxRetriesExceeded, retryBudget) := by
  have := executeAux_all_retryable idempotent responses h retryBudget 0
  simpa [execute] using this

theorem executor_retry_bounded_witness :
    execute false 3 (fun _ => Outcome.connectionFailure) = (.maxRetriesExceeded, 3) :=
  executor_retry_bounded false 3 (fun _ => .connectionFailure) (fun _ => rfl)

/-- For a non-idempotent request, the executor's retry decision is false
for every received server response. -/
theorem retryDecision_nonidem_response (s : Nat) :
    retryDecision false (.response s) = false := by
  by_cases h2 : 200 ≤ s ∧ s < 300 <;> simp [retryDecision, classify, h2]

/-- In a non-idempotent run of the attempt loop, every attempt that was
followed by another attempt observed a connection-level failure. -/
theorem executeAux_nonidem_conn (responses : Nat → Outcome) :
    ∀ fuel made j, made ≤ j →
      j + 1 < (executeAux false responses fuel made).2 →
      responses j = .connectionFailure := by
  intro fuel
  induction fuel with
  | zero =>
    intro made j hmj hlt
    simp [executeAux] at hlt
    omega
  | succ n ih =>
    intro made j hmj hlt
    by_cases hr : retryDecision false (responses made) = true
    · have hconn : responses made = .connectionFailure := by
        cases ho : responses made with
        | connectionFailure => rfl
        | response s =>
          rw [ho, retryDecision_nonidem_response] at hr
          exact absurd hr (by simp)
      have hstep : executeAux false responses (n + 1) made
          = executeAux false responses n (made + 1) := by
        simp [executeAux, hr]
      rw [hstep] at hlt
      rcases Nat.eq_or_lt_of_le hmj with heq | hlt2
      · rw [← heq]; exact hconn
      · exact ih (made + 1) j hlt2 hlt
    · have hb : retryDecision false (responses made) = false := by
        simpa using hr
      have hstep : (executeAux false responses (n + 1) made).2 = made + 1 := by
        cases ho : responses made with
        | response s =>
          rw [ho] at hb
          by_cases h2 : 200 ≤ s ∧ s < 300 <;> simp [executeAux, ho, hb, h2]
        | connectionFailure =>
          rw [ho] at hb
          simp [executeAux, ho, hb]
      rw [hstep] at hlt
      omega

/-- Claim C3: in a non-idempotent execution, an attempt that received
any server response (even an error response) is never retried — every
attempt that was followed by a retry had a connection-level failure in
which no response was received. -/
theorem executor_nonidempotent_no_retry_after_response (retryBudget : Nat)
    (responses : Nat → Outcome) (j : Nat)
    (h : j + 1 < (execute false retryBudget responses).2) :
    responses j = .connectionFailure :=
  executeAux_nonidem_conn responses retryBudget 0 j (Nat.zero_le j) h

theorem executor_nonidempotent_no_retry_after_response_witness :
    (fun i => if i = 0 then Outcome.connectionFailure else Outcome.response 500) 0
      = Outcome.connectionFailure :=
  executor_nonidempotent_no_retry_after_response 5
    (fun i => if i = 0 then Outcome.connectionFailure else Outcome.response 500) 0
    (by decide)

/-- Claim C4: a cached TokenInfo whose expiry lies within the safety
margin of now is treated as stale by a getAccessToken call: the call
hands out no token (it joins or starts a refresh, leaving one in
flight), so a refresh completes before any token reaches a caller. -/
theorem stale_token_triggers_refresh (margin now : Nat) (s : SessionState)
    (t : TokenInfo) (hc : s.cached = some t)
    (hm : t.accessTokenExpiresAt ≤ now + margin) :
    (∀ r ∈ (step margin s (.call now)).2, ∀ tok : String, r ≠ .ok tok)
    ∧ (s.unrecoverable = false → (step margin s (.call now)).1.inFlight = true) := by
  have hst : isStale margin now t = true := by
    simp [isStale, hm]
  have hnr : needsRefresh margin now s.cached = true := by
    rw [hc]; simp [needsRefresh, hst]
  constructor
  · intro r hr tok
    by_cases hu : s.unrecoverable
    · simp [step, hu] at hr
      simp [hr]
    · by_cases hf : s.inFlight <;> simp [step, hu, hnr, hf] at hr
  · intro hu
    by_cases hf : s.inFlight <;> simp [step, hu, hnr, hf]

theorem stale_token_triggers_refresh_witness :
    (step 60 ⟨some ⟨"tok", none, 100, 0⟩, false, 0, false, 0⟩ (.call 50)).1.inFlight
      = true :=
  (stale_token_triggers_refresh 60 50 ⟨some ⟨"tok", none, 100, 0⟩, false, 0, false, 0⟩
    ⟨"tok", none, 100, 0⟩ rfl (by decide)).2 rfl

/-- Claim C5: a failed refresh leaves the previously cached TokenInfo
unchanged and clears the in-flight handle; when the failure was not
InvalidGrant, the next stale getAccessToken call starts a fresh refresh
(one new network call); when it was InvalidGrant, every later call
surfaces Unrecoverable and never starts another refresh. -/
theorem failed_refresh_preserves_cache (margin : Nat) (s : SessionState)
    (e : GrantError) :
    ((step margin s (.complete (.error e))).1.cached = s.cached)
    ∧ ((step margin s (.complete (.error e))).1.inFlight = false)
    ∧ (e ≠ .invalidGrant → s.unrecoverable = false →
        ∀ now, needsRefresh margin now s.cached = true →
          (step margin (step margin s (.complete (.error e))).1 (.call now)).1.networkCalls
            = s.networkCalls + 1
          ∧ (step margin (step margin s (.complete (.error e))).1 (.call now)).1.inFlight
            = true)
    ∧ (e = .invalidGrant →
        ∀ now,
          (step margin (step margin s (.complete (.error e))).1 (.call now)).2
            = [.error .unrecoverable]
          ∧ (step margin (step margin s (.complete (.error e))).1 (.call now)).1.networkCalls
            = s.networkCalls) := by
  refine ⟨rfl, rfl, ?_, ?_⟩
  · intro hne hu now hnr
    have hd : decide (e = GrantError.invalidGrant) = false := by
      simp [hne]
    constructor <;> simp [step, hd, hu, hnr]
  · intro heq now
    subst heq
    constructor <;> simp [step]

theorem failed_refresh_preserves_cache_witness :
    (step 60 (step 60 ⟨some ⟨"old", some "r", 100, 0⟩, true, 2, false, 5⟩
        (.complete (.error .networkFailure))).1 (.call 200)).1.networkCalls = 6
    ∧ (step 60 (step 60 ⟨some ⟨"old", some "r", 100, 0⟩, true, 2, false, 5⟩
        (.complete (.error .invalidGrant))).1 (.call 200)).2
      = [.error .unrecoverable] := by
  have h1 := (failed_refresh_preserves_cache 60
    ⟨some ⟨"old", some "r", 100, 0⟩, true, 2, false, 5⟩ .networkFailure).2.2.1
    (by decide) rfl 200 (by decide)
  have h2 := (failed_refresh_preserves_cache 60
    ⟨some ⟨"old", some "r", 100, 0⟩, true, 2, false, 5⟩ .invalidGrant).2.2.2
    rfl 200
  exact ⟨h1.1, h2.1⟩

/-- Callers that arrive while a refresh is in flight for a stale slot
all join the in-flight operation: a run of calls adds waiters only,
changing neither the cached token nor the network-call count, and
delivers nothing yet. -/
theorem runEvents_join (margin now m : Nat) (c : Option TokenInfo) (w k : Nat)
    (hnr : needsRefresh margin now c = true) :
    runEvents margin ⟨c, true, w, false, k⟩ (List.replicate m (.call now))
      = (⟨c, true, w + m, false, k⟩, []) := by
  induction m generalizing w with
  | zero => simp [runEvents]
  | succ n ih =>
    have hstep : step margin ⟨c, true, w, false, k⟩ (.call now)
        = (⟨c, true, w + 1, false, k⟩, []) := by
      simp [step, hnr]
    have harith : w + 1 + n = w + (n + 1) := by omega
    rw [List.replicate_succ]
    simp [runEvents, hstep, ih (w + 1), harith]

/-- Running an event list splits across list append: the second segment
continues from the state the first segment reaches, and the delivered
results concatenate. -/
theorem runEvents_append (margin : Nat) (s : SessionState) (l1 l2 : List SessionEvent) :
    runEvents margin s (l1 ++ l2)
      = ((runEvents margin (runEvents margin s l1).1 l2).1,
         (runEvents margin s l1).2
           ++ (runEvents margin (runEvents margin s l1).1 l2).2) := by
  induction l1 generalizing s with
  | nil => simp [runEvents]
  | cons e rest ih =>
    simp [runEvents, ih (step margin s e).1, List.append_assoc]

/-- Claim C1: N concurrent getAccessToken calls on one Persistent or
App-Auth slot with a stale (or absent) cached token cause exactly one
grant/refresh network call — the first caller starts it and every later
caller joins the in-flight refresh — and on completion all N callers
observe the same resulting TokenInfo's access token. -/
theorem session_concurrent_refresh_dedup (margin now N : Nat)
    (c : Option TokenInfo) (k : Nat) (t' : TokenInfo) (hN : 2 ≤ N)
    (hstale : needsRefresh margin now c = true) :
    (runEvents margin ⟨c, false, 0, false, k⟩
        (List.replicate N (.call now) ++ [.complete (.ok t')])).1.networkCalls = k + 1
    ∧ (runEvents margin ⟨c, false, 0, false, k⟩
        (List.replicate N (.call now) ++ [.complete (.ok t')])).2
      = List.replicate N (.ok t'.accessToken)
    ∧ (runEvents margin ⟨c, false, 0, false, k⟩
        (List.replicate N (.call now) ++ [.complete (.ok t')])).1.cached = some t' := by
  obtain ⟨m, rfl⟩ : ∃ m, N = m + 1 := ⟨N - 1, by omega⟩
  have hstep1 : step margin ⟨c, false, 0, false, k⟩ (.call now)
      = (⟨c, true, 0 + 1, false, k + 1⟩, []) := by
    simp [step, hstale]
  have hjoin := runEvents_join margin now m c 1 (k + 1) hstale
  have hrunc : runEvents margin ⟨c, true, 1 + m, false, k + 1⟩ [.complete (.ok t')]
      = (⟨some t', false, 0, false, k + 1⟩,
         List.replicate (1 + m) (.ok t'.accessToken)) := by
    simp [runEvents, step]
  have happ := runEvents_append margin ⟨c, true, 1, false, k + 1⟩
    (List.replicate m (.call now)) [.complete (.ok t')]
  rw [hjoin] at happ
  simp only [hrunc] at happ
  have harith : 1 + m = m + 1 := by omega
  rw [List.replicate_succ, List.cons_append]
  simp [runEvents, hstep1, happ, harith]

theorem session_concurrent_refresh_dedup_witness :
    (runEvents 0 ⟨none, false, 0, false, 0⟩
        (List.replicate 2 (.call 0)
          ++ [.complete (.ok ⟨"new", none, 1000, 0⟩)])).1.networkCalls = 0 + 1
    ∧ (runEvents 0 ⟨none, false, 0, false, 0⟩
        (List.replicate 2 (.call 0)
          ++ [.complete (.ok ⟨"new", none, 1000, 0⟩)])).2
      = List.replicate 2 (.ok "new") := by
  have h := session_concurrent_refresh_dedup 0 0 2 none 0 ⟨"new", none, 1000, 0⟩
    (by decide) rfl
  exact ⟨h.1, h.2.1⟩

/-- Claim C7: detectable construction-time misconfiguration fails fast
by throwing — getPreconfiguredInstance throws a TypeError whenever the
appConfig.boxAppSettings value is not an object, and getAppAuthClient
for an enterprise with no id and no configured enterpriseID throws an
Error instead of deferring the failure to first use. -/
theorem construction_misconfig_fails_fast :
    (∀ fields : List (String × JSVal),
      (∀ o : List (String × JSVal),
        (lookupField fields "boxAppSettings").getD .undefined ≠ .obj o) →
      ∃ m, getPreconfiguredInstance (.obj fields) = .error (.typeError m))
    ∧ (∀ (cfg : Option String) (id : Option String),
        strTruthy cfg = false → idFalsy id = true →
        getAppAuthClient cfg "enterprise" id
          = .error (.plainError "Enterprise ID must be passed")) := by
  constructor
  · intro fields hno
    cases hv : (lookupField fields "boxAppSettings").getD .undefined with
    | obj o => exact absurd hv (hno o)
    | undefined =>
      exact ⟨"Configuration does not include boxAppSettings object.", by
        simp [getPreconfiguredInstance, JSVal.getProp, hv, JSVal.typeof, bind,
          Except.bind, pure, Except.pure]⟩
    | str s =>
      exact ⟨"Configuration does not include boxAppSettings object.", by
        simp [getPreconfiguredInstance, JSVal.getProp, hv, JSVal.typeof, bind,
          Except.bind, pure, Except.pure]⟩
    | num n =>
      exact ⟨"Configuration does not include boxAppSettings object.", by
        simp [getPreconfiguredInstance, JSVal.getProp, hv, JSVal.typeof, bind,
          Except.bind, pure, Except.pure]⟩
    | boolean b =>
      exact ⟨"Configuration does not include boxAppSettings object.", by
        simp [getPreconfiguredInstance, JSVal.getProp, hv, JSVal.typeof, bind,
          Except.bind, pure, Except.pure]⟩
    | func i =>
      exact ⟨"Configuration does not include boxAppSettings object.", by
        simp [getPreconfiguredInstance, JSVal.getProp, hv, JSVal.typeof, bind,
          Except.bind, pure, Except.pure]⟩
    | null =>
      cases hw : (lookupField fields "webhooks").getD .undefined with
      | null =>
        exact ⟨"Cannot read properties of null: primaryKey", by
          simp [getPreconfiguredInstance, JSVal.getProp, hv, hw, JSVal.typeof,
            bind, Except.bind, pure, Except.pure]⟩
      | obj w =>
        exact ⟨"Cannot read properties of null: clientID", by
          simp [getPreconfiguredInstance, JSVal.getProp, hv, hw, JSVal.typeof,
            bind, Except.bind, pure, Except.pure]⟩
      | undefined =>
        exact ⟨"Cannot read properties of null: clientID", by
          simp [getPreconfiguredInstance, JSVal.getProp, hv, hw, JSVal.typeof,
            bind, Except.bind, pure, Except.pure]⟩
      | str s =>
        exact ⟨"Cannot read properties of null: clientID", by
          simp [getPreconfiguredInstance, JSVal.getProp, hv, hw, JSVal.typeof,
            bind, Except.bind, pure, Except.pure]⟩
      | num n =>
        exact ⟨"Cannot read properties of null: clientID", by
          simp [getPreconfiguredInstance, JSVal.getProp, hv, hw, JSVal.typeof,
            bind, Except.bind, pure, Except.pure]⟩
      | boolean b =>
        exact ⟨"Cannot read properties of null: clientID", by
          simp [getPreconfiguredInstance, JSVal.getProp, hv, hw, JSVal.typeof,
            bind, Except.bind, pure, Except.pure]⟩
      | func i =>
        exact ⟨"Cannot read properties of null: clientID", by
          simp [getPreconfiguredInstance, JSVal.getProp, hv, hw, JSVal.typeof,
            bind, Except.bind, pure, Except.pure]⟩
  · intro cfg id h1 h2
    simp [getAppAuthClient, h1, h2]

theorem construction_misconfig_fails_fast_witness :
    (∃ m, getPreconfiguredInstance
        (.obj [("boxAppSettings", .str "bad")]) = .error (.typeError m))
    ∧ getAppAuthClient none "enterprise" none
        = .error (.plainError "Enterprise ID must be passed") :=
  ⟨construction_misconfig_fails_fast.1 [("boxAppSettings", .str "bad")]
      (fun o => by simp [lookupField]),
   construction_misconfig_fails_fast.2 none none rfl rfl⟩
